import Mathlib

/-!
Verification of the SAOE core (saoe-core) against its natural-language
specification.  The Python source under `saoe_core/` is shallowly embedded:
pure functions become Lean functions, the SQLite-backed audit log becomes a
list of events with an explicit success/failure append, and the validator's
exception control flow becomes `Except` values.  External libraries
(PyNaCl Ed25519, `hashlib.sha256`, `jsonschema`) are modelled as parameters
of an `ExternalLibs` structure: the theorems hold for every instantiation,
and witnesses instantiate them with small concrete toy functions.  The
Python `json` standard library's textual decoder is modelled at the value
level (a decoded document is a `Json` value; `json.loads ∘ json.dumps` is
the identity on values), while the repository's own serialisation code
(`json.dumps` argument choices: key order, separators, ASCII escaping) is
embedded in full.
-/

namespace Saoe

/-- JSON values as produced by `json.loads` with the duplicate-key-rejecting
`object_pairs_hook` of `saoe_core/satl/envelope.py`: objects are association
lists in insertion order.  Numbers are modelled as integers (the claims under
verification involve no floating-point values). -/
inductive Json where
  | null
  | bool (b : Bool)
  | num (n : Int)
  | str (s : String)
  | arr (items : List Json)
  | obj (fields : List (String × Json))
deriving Repr

mutual
/-- Structural equality of JSON values, modelling Python `==` on values
decoded by `json.loads` (the repository only ever compares strings to
strings, where Python `==` is exactly structural equality). -/
def Json.beq : Json → Json → Bool
  | .null, .null => true
  | .bool a, .bool b => a == b
  | .num a, .num b => a == b
  | .str a, .str b => a == b
  | .arr a, .arr b => Json.beqList a b
  | .obj a, .obj b => Json.beqFields a b
  | _, _ => false

def Json.beqList : List Json → List Json → Bool
  | [], [] => true
  | x :: xs, y :: ys => Json.beq x y && Json.beqList xs ys
  | _, _ => false

def Json.beqFields : List (String × Json) → List (String × Json) → Bool
  | [], [] => true
  | (k, v) :: xs, (l, w) :: ys => k == l && Json.beq v w && Json.beqFields xs ys
  | _, _ => false
end

instance : BEq Json := ⟨Json.beq⟩

/-- Hexadecimal digit characters, lowercase, as CPython emits them in
`\uXXXX` escapes. -/
def hexDigitChar (n : Nat) : Char :=
  if n < 10 then Char.ofNat (48 + n) else Char.ofNat (87 + n % 16)

/-- Four lowercase hex digits of `n % 65536`, the body of a `\uXXXX` escape. -/
def u4 (n : Nat) : String :=
  String.mk [hexDigitChar (n / 4096 % 16), hexDigitChar (n / 256 % 16),
             hexDigitChar (n / 16 % 16), hexDigitChar (n % 16)]

/-- Escape one character the way CPython's `json.dumps` does with
`ensure_ascii=True`: `"` and `\` get a backslash, the five C escapes are
used for their control characters, every other character outside printable
ASCII (outside U+0020..U+007E) becomes `\uXXXX`, with surrogate pairs for
characters beyond U+FFFF. -/
def escapeChar (c : Char) : String :=
  if c = '"' then "\\\""
  else if c = '\\' then "\\\\"
  else if c = '\n' then "\\n"
  else if c = '\t' then "\\t"
  else if c = '\r' then "\\r"
  else if c = '\x08' then "\\b"
  else if c = '\x0c' then "\\f"
  else if c.toNat < 0x20 ∨ c.toNat > 0x7e then
    if c.toNat < 0x10000 then "\\u" ++ u4 c.toNat
    else
      let v := c.toNat - 0x10000
      "\\u" ++ u4 (0xd800 + v / 0x400) ++ "\\u" ++ u4 (0xdc00 + v % 0x400)
  else String.singleton c

/-- JSON string literal serialisation (quotes plus escaped body). -/
def escapeString (s : String) : String :=
  "\"" ++ String.join (s.data.map escapeChar) ++ "\""

/-- Separator configuration of a `json.dumps` call: `item` goes between
array/object members, `kv` between a key and its value.  The canonical rules
use `(",", ":")`; CPython's defaults are `(", ", ": ")`. -/
structure SepCfg where
  item : String
  kv : String

/-- `separators=(",", ":")` as used for every hash and signature. -/
def sepCanonical : SepCfg := ⟨",", ":"⟩

/-- CPython's default separators (used by the step-11 payload size check and
by `envelope_to_json`). -/
def sepDefault : SepCfg := ⟨", ", ": "⟩

/-- Code-point lexicographic order on character lists: CPython's `<` on
`str`, and equally SQLite's ordering of (ASCII) TEXT values. -/
def charListLt : List Char → List Char → Bool
  | _, [] => false
  | [], _ :: _ => true
  | a :: as, b :: bs =>
    if a.toNat < b.toNat then true
    else if b.toNat < a.toNat then false
    else charListLt as bs

/-- `a < b` on Python strings (code-point lexicographic). -/
def strLt (a b : String) : Bool := charListLt a.data b.data

/-- Stable insertion of an object field by key, preserving existing order
among equal keys, matching CPython's stable `sorted`. -/
def insertByKey (p : String × Json) : List (String × Json) → List (String × Json)
  | [] => [p]
  | q :: qs => if strLt p.1 q.1 then p :: q :: qs else q :: insertByKey p qs

/-- Stable sort of object fields by key (models `sort_keys=True`). -/
def sortFieldsByKey : List (String × Json) → List (String × Json)
  | [] => []
  | p :: ps => insertByKey p (sortFieldsByKey ps)

mutual
/-- Recursively sort every object's fields by key: `json.dumps` with
`sort_keys=True` equals plain serialisation of the key-sorted value. -/
def sortJson : Json → Json
  | .null => .null
  | .bool b => .bool b
  | .num n => .num n
  | .str s => .str s
  | .arr items => .arr (sortJsonList items)
  | .obj fields => .obj (sortFieldsByKey (sortJsonFields fields))

def sortJsonList : List Json → List Json
  | [] => []
  | x :: xs => sortJson x :: sortJsonList xs

def sortJsonFields : List (String × Json) → List (String × Json)
  | [] => []
  | (k, v) :: xs => (k, sortJson v) :: sortJsonFields xs
end

mutual
/-- Serialise a `Json` value in the field order given, with the separator
configuration `sep` and `ensure_ascii=True` escaping — the body of
`json.dumps(obj, separators=sep, ensure_ascii=True)` for values whose object
fields are already in the desired order. -/
def dumpJson (sep : SepCfg) : Json → String
  | .null => "null"
  | .bool true => "true"
  | .bool false => "false"
  | .num n => toString n
  | .str s => escapeString s
  | .arr items => "[" ++ String.intercalate sep.item (dumpList sep items) ++ "]"
  | .obj fields => "\x7b" ++ String.intercalate sep.item (dumpFields sep fields) ++ "\x7d"

def dumpList (sep : SepCfg) : List Json → List String
  | [] => []
  | x :: xs => dumpJson sep x :: dumpList sep xs

def dumpFields (sep : SepCfg) : List (String × Json) → List String
  | [] => []
  | (k, v) :: xs => (escapeString k ++ sep.kv ++ dumpJson sep v) :: dumpFields sep xs
end

/-- `json.dumps(obj, sort_keys=True, separators=(",", ":"), ensure_ascii=True)`
— the canonical JSON serialisation used for every hash and signature
(`_canonical_json` in `envelope.py`, `_canonical_json_bytes` in
`validator.py`). -/
def canonicalString (j : Json) : String :=
  dumpJson sepCanonical (sortJson j)

/-- `json.dumps(obj)` with CPython defaults: insertion-order keys, separators
`", "` and `": "`, `ensure_ascii=True`.  This (not the canonical form) is
what `_check_capability_constraints` measures at validation step 11. -/
def defaultString (j : Json) : String :=
  dumpJson sepDefault j

/-- UTF-8 encoded length of one character. -/
def utf8CharLen (c : Char) : Nat :=
  if c.toNat < 0x80 then 1
  else if c.toNat < 0x800 then 2
  else if c.toNat < 0x10000 then 3
  else 4

/-- `len(s.encode("utf-8"))` for a Python string modelled as a Lean
`String`. -/
def utf8Len (s : String) : Nat :=
  (s.data.map utf8CharLen).sum

/-- Value of one hex digit, upper or lower case, as `bytes.fromhex`
accepts. -/
def hexDigitVal (c : Char) : Option Nat :=
  if '0' ≤ c ∧ c ≤ '9' then some (c.toNat - 48)
  else if 'a' ≤ c ∧ c ≤ 'f' then some (c.toNat - 87)
  else if 'A' ≤ c ∧ c ≤ 'F' then some (c.toNat - 55)
  else none

/-- Decode a whitespace-stripped character list two hex digits per byte. -/
def hexPairs : List Char → Option (List Nat)
  | [] => some []
  | [_] => none
  | a :: b :: rest =>
    match hexDigitVal a, hexDigitVal b, hexPairs rest with
    | some ha, some hb, some tl => some ((16 * ha + hb) :: tl)
    | _, _, _ => none

/-- `bytes.fromhex`: two hex digits per byte, ASCII whitespace ignored;
`none` models the `ValueError` CPython raises on malformed input. -/
def hexDecode (s : String) : Option (List Nat) :=
  hexPairs (s.data.filter (fun c => ¬ (c = ' ' ∨ c = '\t' ∨ c = '\n' ∨ c = '\r' ∨ c = '\x0b' ∨ c = '\x0c')))

/-! ## Audit log (`saoe_core/audit/events_sqlite.py`)

The SQLite table `audit_events` is modelled as a list of events in insertion
order.  The partial index `idx_envelope_id` (`UNIQUE ... WHERE envelope_id
IS NOT NULL`) makes `INSERT` raise `sqlite3.IntegrityError` exactly when the
new row's `envelope_id` is non-NULL and already present; `AuditLog.emit`
converts that into `ReplayAttackError` only when `event.envelope_id` is
truthy (a non-empty string — `if event.envelope_id and "envelope_id" in
str(exc).lower()`; the message of this index's violation always names
`envelope_id`).  A duplicate *empty-string* id therefore re-raises the bare
`IntegrityError`. -/

/-- A row of `audit_events` (class `AuditEvent`). -/
structure AuditEvent where
  event_type : String
  timestamp_utc : String
  envelope_id : Option String := none
  session_id : Option String := none
  sender_id : Option String := none
  receiver_id : Option String := none
  template_id : Option String := none
  agent_id : Option String := none
  details : Option Json := none
deriving Repr

/-- Outcome of a failed `INSERT` in `AuditLog.emit`. -/
inductive EmitError where
  | replayAttack
  | integrityError
deriving Repr, DecidableEq

/-- `AuditLog.has_envelope_id` and, equally, the applicability test of the
partial unique index: some stored row has this non-NULL `envelope_id`. -/
def hasEnvelopeId (store : List AuditEvent) (x : String) : Bool :=
  store.any (fun ev => ev.envelope_id == some x)

/-- `AuditLog.emit`: atomic append.  A duplicate non-NULL `envelope_id` makes
the `INSERT` fail, leaving the store unchanged; the failure surfaces as
`ReplayAttackError` for a truthy (non-empty) id and as the bare
`sqlite3.IntegrityError` for the empty string. -/
def emit (store : List AuditEvent) (event : AuditEvent) : Except EmitError (List AuditEvent) :=
  match event.envelope_id with
  | none => .ok (store ++ [event])
  | some x =>
    if hasEnvelopeId store x then
      if x ≠ "" then .error .replayAttack else .error .integrityError
    else .ok (store ++ [event])

/-- `AuditLog.query_session_count`: count of `validated` events for
`sender_id` with `timestamp_utc >= datetime('now', '-N hours')`.  SQLite
compares TEXT lexicographically; the computed lower bound is passed in as
`cutoff`. -/
def query_session_count (store : List AuditEvent) (sender_id : String) (cutoff : String) : Nat :=
  (store.filter (fun ev =>
    ev.sender_id == some sender_id && ev.event_type == "validated"
      && !strLt ev.timestamp_utc cutoff)).length

/-- Number of stored events carrying the non-NULL envelope id `x`. -/
def countEnvelopeId (store : List AuditEvent) (x : String) : Nat :=
  (store.filter (fun ev => ev.envelope_id == some x)).length

/-- Stores reachable from the empty table by successful `emit` calls
(append-only: rows are never mutated or deleted). -/
inductive EmitReach : List AuditEvent → Prop where
  | nil : EmitReach []
  | step {store event store'} : EmitReach store → emit store event = .ok store' →
      EmitReach store'

/-! ## Envelope codec (`saoe_core/satl/envelope.py`) -/

/-- `TemplateRef` dataclass. -/
structure TemplateRef where
  template_id : String
  version : String
  sha256_hash : String
  dispatcher_signature : String
  capability_set_id : String
  capability_set_version : String
deriving Repr, DecidableEq

/-- `SATLEnvelope` dataclass.  The required fields are modelled at their
declared types (`str` fields as `String`, `payload: dict` as an ordered
association list); the dynamic Python code performs no runtime type check on
them, and every claim under verification concerns well-typed envelopes. -/
structure SATLEnvelope where
  version : String
  envelope_id : String
  session_id : String
  timestamp_utc : String
  sender_id : String
  receiver_id : String
  human_readable : String
  template_ref : TemplateRef
  payload : List (String × Json)
  envelope_signature : String
deriving Repr

/-- The `template_ref` sub-dict built by `canonical_bytes` and
`envelope_to_json`. -/
def templateRefData (t : TemplateRef) : Json :=
  .obj [("template_id", .str t.template_id),
        ("version", .str t.version),
        ("sha256_hash", .str t.sha256_hash),
        ("dispatcher_signature", .str t.dispatcher_signature),
        ("capability_set_id", .str t.capability_set_id),
        ("capability_set_version", .str t.capability_set_version)]

/-- The dict built inside `canonical_bytes`: every envelope field except
`envelope_signature`, `human_readable` included. -/
def envelopeCanonicalData (e : SATLEnvelope) : Json :=
  .obj [("version", .str e.version),
        ("envelope_id", .str e.envelope_id),
        ("session_id", .str e.session_id),
        ("timestamp_utc", .str e.timestamp_utc),
        ("sender_id", .str e.sender_id),
        ("receiver_id", .str e.receiver_id),
        ("human_readable", .str e.human_readable),
        ("template_ref", templateRefData e.template_ref),
        ("payload", .obj e.payload)]

/-- `canonical_bytes(envelope)`: the canonical serialisation of the envelope
with `envelope_signature` omitted.  The UTF-8 bytes are represented by the
ASCII string (`ensure_ascii=True` output is pure ASCII; `utf8Len` gives its
byte count). -/
def canonical_bytes (e : SATLEnvelope) : String :=
  canonicalString (envelopeCanonicalData e)

/-- The dict built by `envelope_to_json` — all fields, `envelope_signature`
last.  `envelope_to_json` serialises it with `json.dumps(d, indent=2)`; the
Python `json` stdlib round-trip (`loads` of that text, under the
duplicate-key-rejecting hook — this dict has no duplicate keys) re-yields
this value, so serialisation+deserialisation is modelled at the value
level. -/
def envelope_to_data (e : SATLEnvelope) : Json :=
  .obj [("version", .str e.version),
        ("envelope_id", .str e.envelope_id),
        ("session_id", .str e.session_id),
        ("timestamp_utc", .str e.timestamp_utc),
        ("sender_id", .str e.sender_id),
        ("receiver_id", .str e.receiver_id),
        ("human_readable", .str e.human_readable),
        ("template_ref", templateRefData e.template_ref),
        ("payload", .obj e.payload),
        ("envelope_signature", .str e.envelope_signature)]

/-- Failures of the structural half of `parse_envelope` (after `json.loads`
succeeded): `envelopeParse` is `EnvelopeParseError` (missing required
field); `typeError` models the uncaught Python `TypeError` from indexing a
non-object (and stands in for the model's narrowing of required fields to
their declared types — the Python code assigns them unchecked). -/
inductive ParseError where
  | envelopeParse
  | typeError
deriving Repr, DecidableEq

/-- `d[k]` lookup on a decoded JSON object (duplicate-free association
list). -/
def getField (fields : List (String × Json)) (k : String) : Option Json :=
  match fields.find? (fun p => p.1 == k) with
  | some p => some p.2
  | none => none

/-- Extract a required string field: missing key is `KeyError` →
`EnvelopeParseError`. -/
def getStrField (fields : List (String × Json)) (k : String) : Except ParseError String :=
  match getField fields k with
  | none => .error .envelopeParse
  | some (.str s) => .ok s
  | some _ => .error .typeError

/-- The `TemplateRef(...)` construction of `parse_envelope`: extract the six
required fields from the decoded `template_ref` value, ignoring unknown
keys; a non-object value would be indexed by Python and raise `TypeError`. -/
def parse_template_ref_data (tref_json : Json) : Except ParseError TemplateRef :=
  match tref_json with
  | .obj tf => do
    let template_id ← getStrField tf "template_id"
    let tversion ← getStrField tf "version"
    let sha256_hash ← getStrField tf "sha256_hash"
    let dispatcher_signature ← getStrField tf "dispatcher_signature"
    let capability_set_id ← getStrField tf "capability_set_id"
    let capability_set_version ← getStrField tf "capability_set_version"
    .ok { template_id := template_id, version := tversion, sha256_hash := sha256_hash,
          dispatcher_signature := dispatcher_signature,
          capability_set_id := capability_set_id,
          capability_set_version := capability_set_version }
  | _ => .error .typeError

/-- The structural half of `parse_envelope`: field extraction from the
decoded JSON value.  Unknown keys at any level are silently ignored; missing
required keys raise `EnvelopeParseError`.  Field order follows the source:
`template_ref` and its six fields first, then the envelope fields in
constructor order. -/
def parse_envelope_data (data : Json) : Except ParseError SATLEnvelope :=
  match data with
  | .obj fields =>
    match getField fields "template_ref" with
    | none => .error .envelopeParse
    | some tref_json => do
      let template_ref ← parse_template_ref_data tref_json
      let version ← getStrField fields "version"
      let envelope_id ← getStrField fields "envelope_id"
      let session_id ← getStrField fields "session_id"
      let timestamp_utc ← getStrField fields "timestamp_utc"
      let sender_id ← getStrField fields "sender_id"
      let receiver_id ← getStrField fields "receiver_id"
      let human_readable ← getStrField fields "human_readable"
      let payload ← match getField fields "payload" with
        | none => .error ParseError.envelopeParse
        | some (.obj p) => .ok p
        | some _ => .error ParseError.typeError
      let envelope_signature ← getStrField fields "envelope_signature"
      .ok { version := version, envelope_id := envelope_id, session_id := session_id,
            timestamp_utc := timestamp_utc, sender_id := sender_id,
            receiver_id := receiver_id, human_readable := human_readable,
            template_ref := template_ref,
            payload := payload, envelope_signature := envelope_signature }
  | _ => .error .typeError

/-! ## External libraries

PyNaCl's Ed25519, `hashlib.sha256` and `jsonschema.validate` are outside
this repository; they are modelled as an uninterpreted parameter structure.
Verify keys are opaque identifiers (`String`).  Signature *hex decoding*
(`bytes.fromhex`) is embedded concretely above, because the repository
handles its failure differently at different call sites. -/

structure ExternalLibs where
  /-- `hashlib.sha256(data).hexdigest()` on ASCII data. -/
  sha256Hex : String → String
  /-- `verify_bytes(vk, data, signature)` succeeding (no
  `BadSignatureError`). -/
  verify : String → String → List Nat → Bool
  /-- `jsonschema.validate(instance, schema)` succeeding (schema first
  argument here). -/
  jsonschemaOk : Json → Json → Bool

/-- `verify_envelope_signature`: hex-decode `envelope_signature` (a
decoding failure is wrapped into `BadSignatureError`, i.e. plain `false`
here) and verify over `canonical_bytes`. -/
def verify_envelope_signature (libs : ExternalLibs) (e : SATLEnvelope) (vk : String) : Bool :=
  match hexDecode e.envelope_signature with
  | none => false
  | some sig => libs.verify vk (canonical_bytes e) sig

/-! ## Validator (`saoe_core/satl/validator.py`) -/

/-- One rejection kind per validation failure, plus `typeError` /
`integrityError` for the uncaught Python exceptions reachable on ill-typed
vault content or a duplicate empty-string envelope id. -/
inductive VError where
  | fileSizeExceeded
  | duplicateKey
  | envelopeParse
  | typeError
  | badSignature
  | receiverMismatch
  | vaultResolution
  | templateSha256Mismatch
  | dispatcherSig
  | payloadSchema
  | capabilityConstraint
  | replayAttack
  | integrityError
deriving Repr, DecidableEq

/-- Failures of the textual `json.loads` stage of `parse_envelope`
(strict decode with the duplicate-key-rejecting hook). -/
inductive LoadError where
  | duplicateKey
  | invalidJson
deriving Repr, DecidableEq

/-- The `envelope_or_raw` argument of `EnvelopeValidator.validate`.  Raw
text input is modelled by its two relevant observations: its byte length
(step 1) and the outcome of the stdlib's strict decode to a JSON value
(step 2); the textual decoder itself is the Python `json` stdlib, outside
this repository. -/
inductive EnvelopeOrRaw where
  | env (e : SATLEnvelope)
  | raw (size : Nat) (loaded : Except LoadError Json)

/-- The vault as the validator observes it: `get_template` /
`get_capability_set` return decrypted, parsed JSON (or
`VaultEntryNotFoundError`, modelled as `none`), and
`get_dispatcher_verify_key` returns the pinned key.  `AgeVault` performs no
hash or signature check on entries. -/
structure Vault where
  templates : List ((String × String) × Json)
  capsets : List ((String × String) × Json)
  dispatcher_vk : String

/-- `AgeVault.get_template`. -/
def Vault.get_template (v : Vault) (template_id version : String) : Option Json :=
  match v.templates.find? (fun p => p.1 == (template_id, version)) with
  | some p => some p.2
  | none => none

/-- `AgeVault.get_capability_set`. -/
def Vault.get_capability_set (v : Vault) (cap_set_id version : String) : Option Json :=
  match v.capsets.find? (fun p => p.1 == (cap_set_id, version)) with
  | some p => some p.2
  | none => none

/-- `ValidationResult` dataclass. -/
structure ValidationResult where
  envelope : SATLEnvelope
  template : Json
  capability_set : Json
  session_id : String
  sender_id : String
  receiver_id : String
deriving Repr

/-- Constructor parameters of `EnvelopeValidator`, plus the two time values
the run observes: `now` (the `datetime.now(timezone.utc)` default of the
emitted event's timestamp) and `quota_cutoff` (SQLite's
`datetime('now', '-1 hours')` at the step-11 read). -/
structure ValidatorConfig where
  own_agent_id : String
  file_size_cap : Nat := 1048576
  max_quota : Nat := 1000
  now : String := ""
  quota_cutoff : String := ""

/-- `_verify_manifest_signature`: canonical bytes of
`{template_id, version, sha256_hash}`. -/
def manifestString (template_id version sha256_hash : String) : String :=
  canonicalString (.obj [("template_id", .str template_id),
                         ("version", .str version),
                         ("sha256_hash", .str sha256_hash)])

/-- `_verify_manifest_signature` succeeding: both a non-hex signature and a
failed verification raise `DispatcherSigError`, so both are `false` here. -/
def verify_manifest_signature (libs : ExternalLibs) (vk template_id version sha256_hash signature_hex : String) : Bool :=
  match hexDecode signature_hex with
  | none => false
  | some sig => libs.verify vk (manifestString template_id version sha256_hash) sig

/-- `_check_capability_constraints` (step 11).  Missing policy fields
default to most-restrictive (`[]` / `[]` / `0`); a present field of the
wrong shape is `typeError` (Python would raise `TypeError` at the `in` /
`>` use — except for string values, whose Python `in` would be a substring
test; no claim involves non-list values there). -/
def check_capability_constraints (store : List AuditEvent) (cfg : ValidatorConfig)
    (envelope : SATLEnvelope) (policy : List (String × Json)) : Except VError Unit :=
  match (getField policy "allowed_senders").getD (.arr []) with
  | .arr allowed_senders =>
    if ¬ allowed_senders.contains (.str envelope.sender_id) then
      .error .capabilityConstraint
    else
      match (getField policy "allowed_receivers").getD (.arr []) with
      | .arr allowed_receivers =>
        if ¬ allowed_receivers.contains (.str envelope.receiver_id) then
          .error .capabilityConstraint
        else
          -- `payload_size = len(json.dumps(envelope.payload).encode("utf-8"))`,
          -- CPython default separators and key order, inlined below.
          match (getField policy "max_payload_bytes").getD (.num 0) with
          | .num max_payload_bytes =>
            if (utf8Len (defaultString (.obj envelope.payload)) : Int) > max_payload_bytes then
              .error .capabilityConstraint
            else if query_session_count store envelope.sender_id cfg.quota_cutoff ≥ cfg.max_quota then
              .error .capabilityConstraint
            else .ok ()
          | _ => .error .typeError
      | _ => .error .typeError
  | _ => .error .typeError

/-- The `validated` audit event emitted at step 12. -/
def validatedEvent (cfg : ValidatorConfig) (envelope : SATLEnvelope) : AuditEvent :=
  { event_type := "validated",
    timestamp_utc := cfg.now,
    envelope_id := some envelope.envelope_id,
    session_id := some envelope.session_id,
    sender_id := some envelope.sender_id,
    receiver_id := some envelope.receiver_id,
    template_id := some envelope.template_ref.template_id,
    agent_id := some cfg.own_agent_id,
    details := some (.obj [("template_version", .str envelope.template_ref.version)]) }

/-- `template.get("policy_metadata", {})` handed to
`_check_capability_constraints`: a missing key defaults to the empty dict,
a present non-dict value makes the callee's `.get` raise (`typeError`). -/
def policyOf (tfields : List (String × Json)) : Except VError (List (String × Json)) :=
  match getField tfields "policy_metadata" with
  | none => .ok []
  | some (.obj p) => .ok p
  | some _ => .error .typeError

/-- Steps 10–12 of `EnvelopeValidator.validate`, entered with the resolved
`template` and `capset`.  At step 10, a `json_schema` key holding JSON
`null` behaves like a missing key (`template.get` returns `None` for both);
a non-object template makes `template.get` raise (`typeError`).  The emit of
step 12 is the only write to the audit store in the whole pipeline. -/
def step10to12 (libs : ExternalLibs) (cfg : ValidatorConfig) (envelope : SATLEnvelope)
    (store : List AuditEvent) (template capset : Json) :
    Except VError ValidationResult × List AuditEvent :=
  -- Step 10: validate payload against the template's JSON Schema.
  match template with
  | .obj tfields =>
    match (getField tfields "json_schema").getD .null with
    | .null => (.error .payloadSchema, store)
    | schema =>
      if ¬ libs.jsonschemaOk schema (.obj envelope.payload) then
        (.error .payloadSchema, store)
      else
        -- Step 11: capability constraints.
        match policyOf tfields with
        | .error err => (.error err, store)
        | .ok policy =>
          match check_capability_constraints store cfg envelope policy with
          | .error err => (.error err, store)
          | .ok () =>
            -- Step 12: replay check + emit validated event.
            match emit store (validatedEvent cfg envelope) with
            | .error .replayAttack => (.error .replayAttack, store)
            | .error .integrityError => (.error .integrityError, store)
            | .ok store' =>
              (.ok { envelope := envelope, template := template,
                     capability_set := capset,
                     session_id := envelope.session_id,
                     sender_id := envelope.sender_id,
                     receiver_id := envelope.receiver_id }, store')
  | _ => (.error .typeError, store)

/-- Steps 3–12 of `EnvelopeValidator.validate`, on an (already parsed)
envelope.  Step 9 is deliberately absent: the source resolves the
capability set at step 8 and proceeds directly to step 10 (its step-9 block
is only a comment documenting the gap).  The returned store is unchanged on
every failure. -/
def validateFromStep3 (libs : ExternalLibs) (vault : Vault) (cfg : ValidatorConfig)
    (envelope : SATLEnvelope) (sender_verify_key : String) (store : List AuditEvent) :
    Except VError ValidationResult × List AuditEvent :=
  -- Step 3: verify envelope signature.
  if ¬ verify_envelope_signature libs envelope sender_verify_key then
    (.error .badSignature, store)
  -- Step 4: receiver_id must match own agent.
  else if envelope.receiver_id ≠ cfg.own_agent_id then
    (.error .receiverMismatch, store)
  else
    -- Step 5: resolve template from vault (`tref = envelope.template_ref`).
    match vault.get_template envelope.template_ref.template_id envelope.template_ref.version with
    | none => (.error .vaultResolution, store)
    | some template =>
      -- Step 6: verify template sha256 (`expected_sha256` inlined).
      if libs.sha256Hex (canonicalString template) ≠ envelope.template_ref.sha256_hash then
        (.error .templateSha256Mismatch, store)
      -- Step 7: verify dispatcher signature over template manifest
      -- (the source passes the freshly computed `expected_sha256`, equal to
      -- the envelope's hash after step 6 passed).
      else if ¬ verify_manifest_signature libs vault.dispatcher_vk
                  envelope.template_ref.template_id envelope.template_ref.version
                  (libs.sha256Hex (canonicalString template))
                  envelope.template_ref.dispatcher_signature then
        (.error .dispatcherSig, store)
      else
        -- Step 8: resolve capability set from vault.
        match vault.get_capability_set envelope.template_ref.capability_set_id
            envelope.template_ref.capability_set_version with
        | none => (.error .vaultResolution, store)
        | some capset =>
          -- (Step 9 of the documented pipeline: no code in the source.)
          step10to12 libs cfg envelope store template capset

/-- `EnvelopeValidator.validate`.  A pre-parsed `SATLEnvelope` goes straight
to step 3; raw input passes the size cap (step 1) and the strict parse
(step 2) first. -/
def validate (libs : ExternalLibs) (vault : Vault) (cfg : ValidatorConfig)
    (envelope_or_raw : EnvelopeOrRaw) (sender_verify_key : String) (store : List AuditEvent) :
    Except VError ValidationResult × List AuditEvent :=
  match envelope_or_raw with
  | .env envelope => validateFromStep3 libs vault cfg envelope sender_verify_key store
  | .raw size loaded =>
    -- Step 1: size cap.
    if size > cfg.file_size_cap then (.error .fileSizeExceeded, store)
    else
      -- Step 2: strict parse.
      match loaded with
      | .error .duplicateKey => (.error .duplicateKey, store)
      | .error .invalidJson => (.error .envelopeParse, store)
      | .ok data =>
        match parse_envelope_data data with
        | .error .envelopeParse => (.error .envelopeParse, store)
        | .error .typeError => (.error .typeError, store)
        | .ok envelope => validateFromStep3 libs vault cfg envelope sender_verify_key store

/-! ## ToolGate (`saoe_core/toolgate/toolgate.py`) -/

/-- `ToolCall` dataclass. -/
structure ToolCall where
  tool_call_id : String
  tool_name : String
  args : Json
deriving Repr

/-- `ExecutionPlan` dataclass. -/
structure ExecutionPlan where
  plan_id : String
  session_id : String
  issuer_id : String
  timestamp_utc : String
  tool_calls : List ToolCall
  issuer_signature : String
  schema_version : String := "1.0"
deriving Repr

/-- The per-call sub-dict of `plan_canonical_bytes`. -/
def toolCallData (tc : ToolCall) : Json :=
  .obj [("tool_call_id", .str tc.tool_call_id),
        ("tool_name", .str tc.tool_name),
        ("args", tc.args)]

/-- `plan_canonical_bytes`: canonical serialisation of the plan with
`issuer_signature` omitted. -/
def plan_canonical_bytes (p : ExecutionPlan) : String :=
  canonicalString (.obj [("schema_version", .str p.schema_version),
                         ("plan_id", .str p.plan_id),
                         ("session_id", .str p.session_id),
                         ("issuer_id", .str p.issuer_id),
                         ("timestamp_utc", .str p.timestamp_utc),
                         ("tool_calls", .arr (p.tool_calls.map toolCallData))])

/-- `_ToolEntry`: the registered callable and its args schema.  Tool
callables are pure `(args, context) → result` functions in the model. -/
structure ToolEntry where
  fn : Json → Json → Json
  args_schema : Json

/-- A constructed `ToolGate` (the pin check of `__init__` has passed): the
pinned issuer key and the registry written by `register_tool`
(`self._tools[name] = entry`, i.e. a by-name map). -/
structure ToolGate where
  issuer_vk : String
  tools : String → Option ToolEntry

/-- `ToolGate.register_tool`: `self._tools[name] = entry` — a later
registration under the same name overwrites the earlier one. -/
def ToolGate.register_tool (g : ToolGate) (name : String)
    (fn : Json → Json → Json) (args_schema : Json) : ToolGate :=
  { g with tools := fun n =>
      if n = name then some { fn := fn, args_schema := args_schema } else g.tools n }

/-- `ToolGate.execute` error kinds.  `valueError` is the uncaught Python
`ValueError` that `bytes.fromhex(plan.issuer_signature)` raises on a
non-hex signature string — `execute`, unlike the envelope and manifest
verifiers, does not wrap it. -/
inductive TGError where
  | valueError
  | badSignature
  | unknownTool
  | toolArgSchema
deriving Repr, DecidableEq

/-- The `tool_executed` audit event (its `envelope_id` is NULL, so the
audit insert always succeeds: `emit_none_ok` below). -/
def toolExecutedEvent (now : String) (plan : ExecutionPlan) (tc : ToolCall) : AuditEvent :=
  { event_type := "tool_executed",
    timestamp_utc := now,
    session_id := some plan.session_id,
    agent_id := some plan.issuer_id,
    details := some (.obj [("plan_id", .str plan.plan_id),
                           ("tool_call_id", .str tc.tool_call_id),
                           ("tool_name", .str tc.tool_name)]) }

/-- `emit` on an event without an envelope id always appends — used by the
`tool_executed` writes in the execute loop below. -/
theorem emit_none_ok (store : List AuditEvent) (event : AuditEvent)
    (h : event.envelope_id = none) : emit store event = .ok (store ++ [event]) := by
  simp [emit, h]

/-- The per-call loop of `ToolGate.execute` (steps 2–4 for each call in
order): unregistered name → `UnknownToolError`; args failing the registered
schema → `ToolArgSchemaError`; otherwise invoke the tool, append the
`tool_executed` audit event (always a plain append, by `emit_none_ok`), and
accumulate the result. -/
def executeLoop (libs : ExternalLibs) (gate : ToolGate) (plan : ExecutionPlan)
    (context : Json) (now : String) (store : List AuditEvent) (acc : List Json) :
    List ToolCall → Except TGError (List Json) × List AuditEvent
  | [] => (.ok acc, store)
  | tc :: rest =>
    match gate.tools tc.tool_name with
    | none => (.error .unknownTool, store)
    | some entry =>
      if ¬ libs.jsonschemaOk entry.args_schema tc.args then
        (.error .toolArgSchema, store)
      else
        let result := entry.fn tc.args context
        executeLoop libs gate plan context now
          (store ++ [toolExecutedEvent now plan tc]) (acc ++ [result]) rest

/-- `ToolGate.execute`: hex-decode the issuer signature (uncaught
`ValueError` on failure), verify it once over the canonical plan bytes
(`BadSignatureError` on failure), then run the per-call loop. -/
def ToolGate.execute (libs : ExternalLibs) (gate : ToolGate) (plan : ExecutionPlan)
    (context : Json) (now : String) (store : List AuditEvent) :
    Except TGError (List Json) × List AuditEvent :=
  match hexDecode plan.issuer_signature with
  | none => (.error .valueError, store)
  | some sig_bytes =>
    if ¬ libs.verify gate.issuer_vk (plan_canonical_bytes plan) sig_bytes then
      (.error .badSignature, store)
    else
      executeLoop libs gate plan context now store [] plan.tool_calls

/-! ## Safe filesystem utilities (`saoe_core/util/safe_fs.py`)

A static filesystem is a finite map from absolute paths (component lists)
to nodes; symlink targets are absolute paths.  `Path.resolve()` (POSIX,
non-strict) is modelled by `resolvePath`: walk components left to right,
apply `..` to the resolved prefix, follow symlinks (restarting at their
absolute target) under a fuel bound that models the kernel's loop limit,
and append nonexistent components as-is. -/

/-- A filesystem node. -/
inductive FsNode where
  | file
  | dir
  | symlink (target : List String)
deriving Repr

/-- Finite static filesystem; the root `[]` always exists as a
directory. -/
structure Filesystem where
  nodes : List (List String × FsNode)

/-- Look up the node at an exact (already resolved) absolute path. -/
def fsLookup (fs : Filesystem) (p : List String) : Option FsNode :=
  if p = [] then some .dir
  else
    match fs.nodes.find? (fun q => q.1 == p) with
    | some q => some q.2
    | none => none

/-- Symlink-follow bound, modelling the kernel's ELOOP limit. -/
def fsFuel : Nat := 64

/-- One pass of POSIX path walking without a symlink budget: apply `..` to
the resolved prefix, append ordinary (or nonexistent) components, and stop
at the first symlink, handing back its absolute target and the remaining
components. -/
def resolveStep (fs : Filesystem) : List String → List String →
    List String ⊕ (List String × List String)
  | cur, [] => .inl cur
  | cur, c :: rest =>
    if c = ".." then resolveStep fs cur.dropLast rest
    else
      match fsLookup fs (cur ++ [c]) with
      | some (.symlink t) => .inr (t, rest)
      | _ => resolveStep fs (cur ++ [c]) rest

/-- POSIX path resolution, non-strict (CPython's `Path.resolve()`): follow
at most `fuel` symlinks, restarting at each symlink's absolute target;
`none` models the `OSError`/`RuntimeError` of a symlink loop. -/
def resolvePath (fs : Filesystem) : Nat → List String → List String → Option (List String)
  | 0, cur, rem =>
    match resolveStep fs cur rem with
    | .inl final => some final
    | .inr _ => none
  | fuel + 1, cur, rem =>
    match resolveStep fs cur rem with
    | .inl final => some final
    | .inr (t, rest) => resolvePath fs fuel [] (t ++ rest)

/-- `Path.exists()`: resolve fully (following a leaf symlink too) and check
a node is there; `False` on any `OSError`. -/
def pathExists (fs : Filesystem) (p : List String) : Bool :=
  match resolvePath fs fsFuel [] p with
  | none => false
  | some q => (fsLookup fs q).isSome

/-- `Path.is_symlink()`: `lstat` — resolve the parent, then test the leaf
node without following it; `False` on any `OSError` (including a missing
path). -/
def isSymlinkPath (fs : Filesystem) (p : List String) : Bool :=
  match p.getLast? with
  | none => false
  | some leaf =>
    match resolvePath fs fsFuel [] p.dropLast with
    | none => false
    | some parent =>
      match fsLookup fs (parent ++ [leaf]) with
      | some (.symlink _) => true
      | _ => false

/-- The `while` loop of `_check_no_symlinks_unresolved`, fuelled by the
component count (each iteration drops the last component, so the count
bounds the loop). -/
def toCheckListAux (base : List String) : Nat → List String → List (List String)
  | 0, _ => []
  | fuel + 1, current =>
    if current = base ∨ current = [] then []
    else current :: toCheckListAux base fuel current.dropLast

/-- The segments from `joined` up to (but excluding) `base`, innermost
first.  The loop also stops at the filesystem root
(`current == current.parent`). -/
def toCheckList (base current : List String) : List (List String) :=
  toCheckListAux base current.length current

/-- `_check_no_symlinks_unresolved` passing: no checked segment satisfies
`p.exists() and p.is_symlink()`.  The `p.exists()` conjunct short-circuits
the symlink test, so a *dangling* symlink segment is not rejected. -/
def check_no_symlinks_unresolved (fs : Filesystem) (base joined : List String) : Bool :=
  ((toCheckList base joined).reverse).all
    (fun p => !(pathExists fs p && isSymlinkPath fs p))

/-- `resolve_safe_path` failures: `safePath` is `SafePathError`; `osError`
models the uncaught exception if resolving `base_dir` itself fails (that
call is outside any `try`). -/
inductive SafeFsError where
  | safePath
  | osError
deriving Repr, DecidableEq

/-- `resolve_safe_path(base_dir, untrusted)`: resolve the base, build the
unresolved join, reject symlink components via
`_check_no_symlinks_unresolved`, then canonicalize and require the result
inside the base.  `untrusted` is modelled as the relative component list
pathlib produces from the input string (pathlib drops `.` components at
construction and keeps `..`). -/
def resolve_safe_path (fs : Filesystem) (base_dir untrusted : List String) :
    Except SafeFsError (List String) :=
  match resolvePath fs fsFuel [] base_dir with
  | none => .error .osError
  | some base =>
    let unresolved := base ++ untrusted
    if ¬ check_no_symlinks_unresolved fs base unresolved then
      .error .safePath
    else
      match resolvePath fs fsFuel [] unresolved with
      | none => .error .safePath
      | some candidate =>
        if base.isPrefixOf candidate then .ok candidate
        else .error .safePath

/-! ## Concrete fixtures

Small concrete instantiations used by witnesses and counterexamples.  The
external-library parameters get toy instantiations: the theorems about the
embedded code hold for every instantiation, and these make the runs
evaluable. -/

/-- A concrete template reference (toy hash and hex signatures). -/
def tref0 : TemplateRef :=
  { template_id := "tpl", version := "1", sha256_hash := "h", dispatcher_signature := "aa",
    capability_set_id := "cs", capability_set_version := "1" }

/-- A concrete well-formed envelope. -/
def env0 : SATLEnvelope :=
  { version := "1.0", envelope_id := "e-1", session_id := "s-1", timestamp_utc := "t0",
    sender_id := "alice", receiver_id := "bob", human_readable := "",
    template_ref := tref0, payload := [("title", .str "Hello")], envelope_signature := "bb" }

/-- A concrete template with schema and policy metadata. -/
def template0 : Json :=
  .obj [("json_schema", .obj [("type", .str "object")]),
        ("policy_metadata", .obj [("allowed_senders", .arr [.str "alice"]),
                                  ("allowed_receivers", .arr [.str "bob"]),
                                  ("max_payload_bytes", .num 1000)])]

/-- A concrete capability set. -/
def capset0 : Json := .obj [("allowed_actions", .arr [])]

/-- A concrete vault resolving `tref0`. -/
def vault0 : Vault :=
  { templates := [(("tpl", "1"), template0)], capsets := [(("cs", "1"), capset0)],
    dispatcher_vk := "dvk" }

/-- A concrete validator configuration for agent `bob`. -/
def cfg0 : ValidatorConfig := { own_agent_id := "bob", now := "t1", quota_cutoff := "t-" }

/-- Toy libraries that accept every signature and every schema instance. -/
def libsTrue : ExternalLibs :=
  { sha256Hex := fun _ => "h", verify := fun _ _ _ => true, jsonschemaOk := fun _ _ => true }

/-- The `ValidationResult` of the happy-path run of `env0`. -/
def result0 : ValidationResult :=
  { envelope := env0, template := template0, capability_set := capset0,
    session_id := "s-1", sender_id := "alice", receiver_id := "bob" }

/-! ## Audit-log lemmas -/

/-- A successful `emit` appends exactly the event. -/
theorem emit_ok_elim {store : List AuditEvent} {event : AuditEvent} {store' : List AuditEvent}
    (h : emit store event = .ok store') : store' = store ++ [event] := by
  unfold emit at h
  split at h
  · exact (Except.ok.inj h).symm
  · split at h
    · split at h <;> cases h
    · exact (Except.ok.inj h).symm

/-- A successful `emit` of an event with a non-NULL envelope id certifies the
id was not in the store. -/
theorem emit_ok_nodup {store : List AuditEvent} {event : AuditEvent} {store' : List AuditEvent}
    {x : String} (h : emit store event = .ok store') (hx : event.envelope_id = some x) :
    hasEnvelopeId store x = false := by
  unfold emit at h
  rw [hx] at h
  simp only [] at h
  split at h
  · split at h <;> cases h
  · rename_i hdup
    simpa using hdup

/-- `countEnvelopeId` is additive over append. -/
theorem countEnvelopeId_append (s t : List AuditEvent) (x : String) :
    countEnvelopeId (s ++ t) x = countEnvelopeId s x + countEnvelopeId t x := by
  simp [countEnvelopeId, List.filter_append]

/-- An id absent per `hasEnvelopeId` occurs zero times. -/
theorem hasEnvelopeId_false_count {s : List AuditEvent} {x : String}
    (h : hasEnvelopeId s x = false) : countEnvelopeId s x = 0 := by
  simp only [hasEnvelopeId, List.any_eq_false] at h
  simp only [countEnvelopeId, List.length_eq_zero]
  rw [List.filter_eq_nil_iff]
  intro ev hev
  simpa using h ev hev

/-- The audit store's replay guard as an invariant: in every store built by
successful `emit` calls, each envelope id occurs at most once. -/
theorem emitReach_unique {s : List AuditEvent} (h : EmitReach s) (x : String) :
    countEnvelopeId s x ≤ 1 := by
  induction h with
  | nil => simp [countEnvelopeId]
  | step hreach hemit ih =>
    rename_i store event store'
    obtain rfl := emit_ok_elim hemit
    rw [countEnvelopeId_append]
    by_cases hx : event.envelope_id = some x
    · have h0 : countEnvelopeId store x = 0 :=
        hasEnvelopeId_false_count (emit_ok_nodup hemit hx)
      have h1 : countEnvelopeId [event] x ≤ 1 := by
        simp [countEnvelopeId, List.filter]
        split <;> simp
      omega
    · have h1 : countEnvelopeId [event] x = 0 := by
        simp [countEnvelopeId, List.filter]
        split
        · rename_i hbeq
          exact absurd (by simpa using hbeq) hx
        · rfl
      omega

/-! ## C1 -/

/-- An event carrying the empty-string envelope id (a non-null TEXT value
for SQLite, but falsy for Python's `if event.envelope_id`). -/
def evEmptyId : AuditEvent := { event_type := "validated", timestamp_utc := "t0", envelope_id := some "" }

/-- A second event with the same empty-string envelope id. -/
def evEmptyId2 : AuditEvent := { event_type := "validated", timestamp_utc := "t1", envelope_id := some "" }

/-- C1, counterexample: the claim says a duplicate of any non-null
`envelope_id` fails with `ReplayAttack`, but for the non-null empty string
`""` the handler's truthiness test (`if event.envelope_id and ...`) skips
the wrapping and the bare store `IntegrityError` escapes instead. -/
theorem c1_counterexample :
    emit [evEmptyId] evEmptyId2 = .error .integrityError
      ∧ EmitError.integrityError ≠ EmitError.replayAttack := by
  constructor
  · rfl
  · decide

/-- C1, amended: for an event with non-null `envelope_id` x, `emit`
atomically appends when x is not yet recorded; when it is, the append fails
with `ReplayAttack` if x is non-empty and with the bare `IntegrityError` if
x is the empty string — in either case returning no new store (the failed
`INSERT` leaves the table unchanged); and in every store reachable by
successful emits, each envelope id (hence in particular each `validated`
event's id) occurs at most once. -/
theorem c1_emit_amended (store : List AuditEvent) (event : AuditEvent) (x : String)
    (hid : event.envelope_id = some x) :
    (hasEnvelopeId store x = false → emit store event = .ok (store ++ [event]))
    ∧ (hasEnvelopeId store x = true → x ≠ "" → emit store event = .error .replayAttack)
    ∧ (hasEnvelopeId store x = true → x = "" → emit store event = .error .integrityError)
    ∧ (∀ s, EmitReach s → countEnvelopeId s x ≤ 1) := by
  refine ⟨?_, ?_, ?_, fun s hs => emitReach_unique hs x⟩
  · intro hfresh
    unfold emit
    rw [hid]
    simp [hfresh]
  · intro hdup hne
    unfold emit
    rw [hid]
    simp [hdup, hne]
  · intro hdup he
    subst he
    unfold emit
    rw [hid]
    simp [hdup]

/-- A first event with envelope id `e-1`. -/
def evId1 : AuditEvent := { event_type := "validated", timestamp_utc := "t0", envelope_id := some "e-1" }

/-- A replay of `evId1` (same envelope id, later timestamp). -/
def evId1Replay : AuditEvent := { event_type := "validated", timestamp_utc := "t1", envelope_id := some "e-1" }

/-- C1, witness: the amended theorem instantiated on a fresh append and on a
replayed non-empty id. -/
theorem c1_emit_amended_witness :
    emit [] evId1 = .ok ([] ++ [evId1])
      ∧ emit [evId1] evId1Replay = .error .replayAttack := by
  constructor
  · exact (c1_emit_amended [] evId1 "e-1" rfl).1 rfl
  · exact (c1_emit_amended [evId1] evId1Replay "e-1" rfl).2.1 rfl (by decide)

/-! ## C2 -/

/-- Steps 10–12 leave the store unchanged on every failure. -/
theorem step10to12_error_store {libs : ExternalLibs} {cfg : ValidatorConfig}
    {e : SATLEnvelope} {store : List AuditEvent} {template capset : Json}
    {err : VError} {s' : List AuditEvent}
    (h : step10to12 libs cfg e store template capset = (.error err, s')) : s' = store := by
  unfold step10to12 at h
  repeat' split at h
  all_goals simp only [Prod.mk.injEq] at h
  all_goals first
    | exact h.2.symm
    | cases h.1

/-- A success of steps 10–12 appends exactly the `validated` event of this
envelope, whose id was fresh. -/
theorem step10to12_ok_store {libs : ExternalLibs} {cfg : ValidatorConfig}
    {e : SATLEnvelope} {store : List AuditEvent} {template capset : Json}
    {res : ValidationResult} {s' : List AuditEvent}
    (h : step10to12 libs cfg e store template capset = (.ok res, s')) :
    res.envelope = e ∧ s' = store ++ [validatedEvent cfg e]
      ∧ hasEnvelopeId store e.envelope_id = false := by
  unfold step10to12 at h
  repeat' split at h
  all_goals simp only [Prod.mk.injEq] at h
  all_goals obtain ⟨h1, h2⟩ := h
  all_goals cases h1
  all_goals subst h2
  exact ⟨rfl, emit_ok_elim (by assumption), emit_ok_nodup (by assumption) rfl⟩

/-- Steps 3–12 leave the store unchanged on every failure. -/
theorem validateFromStep3_error_store {libs : ExternalLibs} {vault : Vault}
    {cfg : ValidatorConfig} {e : SATLEnvelope} {vk : String} {store : List AuditEvent}
    {err : VError} {s' : List AuditEvent}
    (h : validateFromStep3 libs vault cfg e vk store = (.error err, s')) : s' = store := by
  unfold validateFromStep3 at h
  repeat' split at h
  all_goals first
    | exact step10to12_error_store h
    | (simp only [Prod.mk.injEq] at h; exact h.2.symm)

/-- A success of steps 3–12 appends exactly the `validated` event. -/
theorem validateFromStep3_ok_store {libs : ExternalLibs} {vault : Vault}
    {cfg : ValidatorConfig} {e : SATLEnvelope} {vk : String} {store : List AuditEvent}
    {res : ValidationResult} {s' : List AuditEvent}
    (h : validateFromStep3 libs vault cfg e vk store = (.ok res, s')) :
    res.envelope = e ∧ s' = store ++ [validatedEvent cfg e]
      ∧ hasEnvelopeId store e.envelope_id = false := by
  unfold validateFromStep3 at h
  repeat' split at h
  all_goals first
    | exact step10to12_ok_store h
    | (simp only [Prod.mk.injEq] at h; cases h.1)

/-- Number of `validated` events carrying envelope id `x`. -/
def countValidated (store : List AuditEvent) (x : String) : Nat :=
  (store.filter (fun ev => ev.event_type == "validated" && ev.envelope_id == some x)).length

/-- C2: a validation run emits a `validated` event exactly when it reaches
step 12 and its atomic append succeeds — on success the store is extended by
exactly one `validated` event carrying the envelope's id (which was not
recorded before, so it now occurs exactly once); on any failure (steps 1–11,
and equally a step-12 replay) the store is unchanged, so no `validated`
event for the attempt exists. -/
theorem c2_validated_emission (libs : ExternalLibs) (vault : Vault) (cfg : ValidatorConfig)
    (input : EnvelopeOrRaw) (vk : String) (store : List AuditEvent) :
    (∀ err s', validate libs vault cfg input vk store = (.error err, s') → s' = store)
    ∧ (∀ res s', validate libs vault cfg input vk store = (.ok res, s') →
        s' = store ++ [validatedEvent cfg res.envelope]
          ∧ (validatedEvent cfg res.envelope).event_type = "validated"
          ∧ (validatedEvent cfg res.envelope).envelope_id = some res.envelope.envelope_id
          ∧ countValidated s' res.envelope.envelope_id = countValidated store res.envelope.envelope_id + 1
          ∧ hasEnvelopeId store res.envelope.envelope_id = false) := by
  constructor
  · intro err s' h
    unfold validate at h
    match input with
    | .env e => exact validateFromStep3_error_store h
    | .raw size loaded =>
      repeat' split at h
      all_goals first
        | exact validateFromStep3_error_store h
        | (simp only [Prod.mk.injEq] at h; exact h.2.symm)
  · intro res s' h
    unfold validate at h
    have core : res.envelope = res.envelope ∧ s' = store ++ [validatedEvent cfg res.envelope]
        ∧ hasEnvelopeId store res.envelope.envelope_id = false := by
      match input with
      | .env e =>
        obtain ⟨he, hs, hf⟩ := validateFromStep3_ok_store h
        subst he
        exact ⟨rfl, hs, hf⟩
      | .raw size loaded =>
        repeat' split at h
        all_goals first
          | (obtain ⟨he, hs, hf⟩ := validateFromStep3_ok_store h; subst he; exact ⟨rfl, hs, hf⟩)
          | (simp only [Prod.mk.injEq] at h; cases h.1)
    obtain ⟨-, hs, hf⟩ := core
    subst hs
    refine ⟨rfl, rfl, rfl, ?_, hf⟩
    have : countValidated [validatedEvent cfg res.envelope] res.envelope.envelope_id = 1 := by
      simp [countValidated, validatedEvent, List.filter]
    simp [countValidated, List.filter_append] at this ⊢
    omega

/-- C2, witness: the happy-path run of `env0` appends exactly its
`validated` event to the empty store. -/
theorem c2_validated_emission_witness :
    validate libsTrue vault0 cfg0 (.env env0) "svk" [] = (.ok result0, [validatedEvent cfg0 env0])
    ∧ ([validatedEvent cfg0 env0] = [] ++ [validatedEvent cfg0 result0.envelope]
       ∧ (validatedEvent cfg0 result0.envelope).event_type = "validated"
       ∧ (validatedEvent cfg0 result0.envelope).envelope_id = some result0.envelope.envelope_id
       ∧ countValidated [validatedEvent cfg0 env0] result0.envelope.envelope_id
           = countValidated [] result0.envelope.envelope_id + 1
       ∧ hasEnvelopeId [] result0.envelope.envelope_id = false) := by
  constructor
  · rfl
  · exact (c2_validated_emission libsTrue vault0 cfg0 (.env env0) "svk" []).2
      result0 [validatedEvent cfg0 env0] rfl

/-! ## C8 -/

/-- `policyOf` can only fail with `typeError`. -/
theorem policyOf_error_kind {tfields : List (String × Json)} {err : VError}
    (h : policyOf tfields = .error err) : err = .typeError := by
  unfold policyOf at h
  repeat' split at h
  all_goals cases h
  all_goals rfl

/-- Step 11 can only fail with `capabilityConstraint` or `typeError`. -/
theorem check_capability_constraints_error_kind {store : List AuditEvent}
    {cfg : ValidatorConfig} {e : SATLEnvelope} {policy : List (String × Json)} {err : VError}
    (h : check_capability_constraints store cfg e policy = .error err) :
    err = .capabilityConstraint ∨ err = .typeError := by
  unfold check_capability_constraints at h
  repeat' split at h
  all_goals cases h
  all_goals simp

/-- Steps 10–12 never fail with the step-1/step-2 error kinds. -/
theorem step10to12_error_kind {libs : ExternalLibs} {cfg : ValidatorConfig}
    {e : SATLEnvelope} {store : List AuditEvent} {template capset : Json}
    {err : VError} {s' : List AuditEvent}
    (h : step10to12 libs cfg e store template capset = (.error err, s')) :
    err ≠ .fileSizeExceeded ∧ err ≠ .duplicateKey ∧ err ≠ .envelopeParse := by
  unfold step10to12 at h
  repeat' split at h
  all_goals simp only [Prod.mk.injEq] at h
  all_goals obtain ⟨h1, h2⟩ := h
  all_goals cases h1
  all_goals first
    | decide
    | (rcases policyOf_error_kind (by assumption) with rfl <;> decide)
    | (rcases check_capability_constraints_error_kind (by assumption) with rfl | rfl <;> decide)

/-- Steps 3–12 never fail with the step-1/step-2 error kinds. -/
theorem validateFromStep3_error_kind {libs : ExternalLibs} {vault : Vault}
    {cfg : ValidatorConfig} {e : SATLEnvelope} {vk : String} {store : List AuditEvent}
    {err : VError} {s' : List AuditEvent}
    (h : validateFromStep3 libs vault cfg e vk store = (.error err, s')) :
    err ≠ .fileSizeExceeded ∧ err ≠ .duplicateKey ∧ err ≠ .envelopeParse := by
  unfold validateFromStep3 at h
  repeat' split at h
  all_goals first
    | exact step10to12_error_kind h
    | (simp only [Prod.mk.injEq] at h; obtain ⟨h1, h2⟩ := h; cases h1; decide)

/-- C8: a pre-parsed `SATLEnvelope` bypasses steps 1–2 entirely — the run
equals the pipeline entered at step 3, for an envelope of any size, and can
never fail with the step-1/step-2 error kinds; whereas raw input larger
than the cap fails with `FileSizeExceeded`. -/
theorem c8_preparsed_skips_steps_1_2 (libs : ExternalLibs) (vault : Vault)
    (cfg : ValidatorConfig) (e : SATLEnvelope) (vk : String) (store : List AuditEvent) :
    validate libs vault cfg (.env e) vk store = validateFromStep3 libs vault cfg e vk store
    ∧ (∀ err s', validate libs vault cfg (.env e) vk store = (.error err, s') →
        err ≠ .fileSizeExceeded ∧ err ≠ .duplicateKey ∧ err ≠ .envelopeParse)
    ∧ (∀ size loaded, size > cfg.file_size_cap →
        validate libs vault cfg (.raw size loaded) vk store = (.error .fileSizeExceeded, store)) := by
  refine ⟨rfl, ?_, ?_⟩
  · intro err s' h
    exact validateFromStep3_error_kind h
  · intro size loaded hsz
    unfold validate
    simp [hsz]

/-- C8, witness: an envelope one byte over the default cap is rejected on
the raw path but the pre-parsed path is entered at step 3. -/
theorem c8_preparsed_skips_steps_1_2_witness :
    validate libsTrue vault0 cfg0 (.raw 1048577 (.error .invalidJson)) "svk" []
      = (.error .fileSizeExceeded, [])
    ∧ validate libsTrue vault0 cfg0 (.env env0) "svk" []
      = validateFromStep3 libsTrue vault0 cfg0 env0 "svk" [] := by
  constructor
  · exact (c8_preparsed_skips_steps_1_2 libsTrue vault0 cfg0 env0 "svk" []).2.2
      1048577 (.error .invalidJson) (by decide)
  · exact (c8_preparsed_skips_steps_1_2 libsTrue vault0 cfg0 env0 "svk" []).1

/-! ## C9 -/

/-- UTF-8 length is additive over string append. -/
theorem utf8Len_append (a b : String) : utf8Len (a ++ b) = utf8Len a + utf8Len b := by
  simp [utf8Len, String.data_append]

/-- Every serialised JSON object is at least the two brace bytes long. -/
theorem obj_default_ge_two (fields : List (String × Json)) :
    2 ≤ utf8Len (defaultString (.obj fields)) := by
  show 2 ≤ utf8Len (dumpJson sepDefault (.obj fields))
  rw [show dumpJson sepDefault (.obj fields)
      = "\x7b" ++ String.intercalate sepDefault.item (dumpFields sepDefault fields) ++ "\x7d" from by
    simp [dumpJson]]
  rw [utf8Len_append, utf8Len_append]
  have h1 : utf8Len "\x7b" = 1 := by decide
  have h2 : utf8Len "\x7d" = 1 := by decide
  omega

/-- C9: when `policy_metadata` omits any of the three constraint fields
(the present ones being well-shaped), step 11 defaults it to
most-restrictive (`[]`, `[]`, or `0`) and every envelope fails with
`CapabilityConstraint` — for a missing `max_payload_bytes` because every
serialised payload object is at least 2 bytes, so its size exceeds 0. -/
theorem c9_missing_policy_field_denies (store : List AuditEvent) (cfg : ValidatorConfig)
    (e : SATLEnvelope) (policy : List (String × Json))
    (hmiss : getField policy "allowed_senders" = none ∨ getField policy "allowed_receivers" = none
              ∨ getField policy "max_payload_bytes" = none)
    (hs : ∀ v, getField policy "allowed_senders" = some v → ∃ xs, v = Json.arr xs)
    (hr : ∀ v, getField policy "allowed_receivers" = some v → ∃ xs, v = Json.arr xs)
    (hm : ∀ v, getField policy "max_payload_bytes" = some v → ∃ n, v = Json.num n) :
    check_capability_constraints store cfg e policy = .error .capabilityConstraint := by
  unfold check_capability_constraints
  repeat' split
  all_goals try rfl
  all_goals first
    | (rename_i _ _ hseq hsin _ _ hreq hrin _ _ hmeq hsize hquota
       exfalso
       rcases hmiss with hA | hB | hC
       · rw [hA, Option.getD_none] at hseq
         cases hseq
         simp at hsin
       · rw [hB, Option.getD_none] at hreq
         cases hreq
         simp at hrin
       · rw [hC, Option.getD_none] at hmeq
         cases hmeq
         have hge := obj_default_ge_two e.payload
         omega)
    | (exfalso
       rename_i _ hno
       first
       | (rcases hv : getField policy "allowed_senders" with _ | v
          · exact hno [] (by rw [hv]; rfl)
          · obtain ⟨xs, rfl⟩ := hs v hv
            exact hno xs (by rw [hv]; rfl))
       | (rcases hv : getField policy "allowed_receivers" with _ | v
          · exact hno [] (by rw [hv]; rfl)
          · obtain ⟨xs, rfl⟩ := hr v hv
            exact hno xs (by rw [hv]; rfl))
       | (rcases hv : getField policy "max_payload_bytes" with _ | v
          · exact hno 0 (by rw [hv]; rfl)
          · obtain ⟨n, rfl⟩ := hm v hv
            exact hno n (by rw [hv]; rfl)))

/-- A policy that names allowed senders and receivers (matching `env0`) but
omits `max_payload_bytes`. -/
def policyNoMax : List (String × Json) :=
  [("allowed_senders", .arr [.str "alice"]), ("allowed_receivers", .arr [.str "bob"])]

/-- C9, witness: `env0` — whose sender and receiver are allowed — is still
denied under `policyNoMax`. -/
theorem c9_missing_policy_field_denies_witness :
    check_capability_constraints [] cfg0 env0 policyNoMax = .error .capabilityConstraint :=
  c9_missing_policy_field_denies [] cfg0 env0 policyNoMax
    (Or.inr (Or.inr rfl))
    (fun v hv => by cases hv; exact ⟨_, rfl⟩)
    (fun v hv => by cases hv; exact ⟨_, rfl⟩)
    (fun v hv => by cases hv)

/-! ## C4 -/

/-- Two-key payload: canonical serialisation `{"a":0,"b":0}` is 13 bytes,
CPython-default serialisation `{"a": 0, "b": 0}` is 16 bytes. -/
def payloadAB : List (String × Json) := [("a", .num 0), ("b", .num 0)]

/-- `env0` with the two-key payload. -/
def envAB : SATLEnvelope := { env0 with payload := payloadAB }

/-- Policy allowing `env0`'s sender/receiver with `max_payload_bytes = 13`,
exactly the canonical size of `payloadAB`. -/
def policy13 : List (String × Json) :=
  [("allowed_senders", .arr [.str "alice"]), ("allowed_receivers", .arr [.str "bob"]),
   ("max_payload_bytes", .num 13)]

/-- C4, counterexample: the claim says a payload whose *canonical* JSON
serialisation is exactly `max_payload_bytes` passes the step-11 size check,
but the source measures `json.dumps(envelope.payload)` with CPython's
default separators (`", "`, `": "`) and insertion-order keys — here 16
bytes against the canonical 13 — so the envelope is rejected. -/
theorem c4_counterexample :
    utf8Len (canonicalString (.obj payloadAB)) = 13
    ∧ utf8Len (defaultString (.obj payloadAB)) = 16
    ∧ check_capability_constraints [] cfg0 envAB policy13 = .error .capabilityConstraint := by
  refine ⟨by decide, by decide, rfl⟩

/-- C4, amended: step 11 measures the byte length of the CPython-default
`json.dumps` serialisation of the payload (insertion-order keys, separators
`", "` and `": "`, ASCII escaping), not the canonical one: with the other
step-11 checks passing, the envelope passes the size check exactly when that
default serialisation is at most `max_payload_bytes` — so equality passes
and one byte over fails. -/
theorem c4_payload_size_amended (store : List AuditEvent) (cfg : ValidatorConfig)
    (e : SATLEnvelope) (policy : List (String × Json))
    (senders receivers : List Json) (maxb : Int)
    (hsv : getField policy "allowed_senders" = some (.arr senders))
    (hrv : getField policy "allowed_receivers" = some (.arr receivers))
    (hmv : getField policy "max_payload_bytes" = some (.num maxb))
    (hsin : senders.contains (.str e.sender_id) = true)
    (hrin : receivers.contains (.str e.receiver_id) = true)
    (hq : query_session_count store e.sender_id cfg.quota_cutoff < cfg.max_quota) :
    check_capability_constraints store cfg e policy = .ok ()
      ↔ (utf8Len (defaultString (.obj e.payload)) : Int) ≤ maxb := by
  unfold check_capability_constraints
  rw [hsv, hrv, hmv]
  simp only [Option.getD_some, hsin, hrin, not_true, if_false]
  constructor
  · intro h
    split at h
    · cases h
    · omega
  · intro hle
    split
    · omega
    · split
      · omega
      · rfl

/-- Single-key payload: default serialisation `{"a": 0}` is 8 bytes. -/
def payloadA : List (String × Json) := [("a", .num 0)]

/-- `env0` with the single-key payload. -/
def envA : SATLEnvelope := { env0 with payload := payloadA }

/-- Policy allowing `env0`'s sender/receiver with `max_payload_bytes = 8`. -/
def policy8 : List (String × Json) :=
  [("allowed_senders", .arr [.str "alice"]), ("allowed_receivers", .arr [.str "bob"]),
   ("max_payload_bytes", .num 8)]

/-- C4, witness: at the boundary — default serialisation exactly 8 bytes
against a cap of 8 — the check passes. -/
theorem c4_payload_size_amended_witness :
    (check_capability_constraints [] cfg0 envA policy8 = .ok ()
      ↔ (utf8Len (defaultString (.obj envA.payload)) : Int) ≤ 8)
    ∧ utf8Len (defaultString (.obj envA.payload)) = 8
    ∧ check_capability_constraints [] cfg0 envA policy8 = .ok () := by
  refine ⟨?_, by decide, rfl⟩
  exact c4_payload_size_amended [] cfg0 envA policy8 [.str "alice"] [.str "bob"] 8
    rfl rfl rfl (by decide) (by decide) (by decide)

/-! ## C3 -/

/-- Modelled from the spec: the step-9 capability-set integrity check the
claim describes, "analogous to steps 6–7" — re-hash the resolved capability
set canonically and compare against a manifest hash, and verify the
dispatcher signature over the capability-set manifest with the pinned
dispatcher key.  The source contains no such code (its step-9 block is only
a comment documenting the gap, and the envelope's `template_ref` carries no
capability-set hash or signature to check against); this definition exists
solely to state what the claim asserts and compare it with the embedded
pipeline. -/
def capsetIntegritySpec (libs : ExternalLibs) (dispatcher_vk : String) (capset : Json)
    (cap_set_id version sha256_hash signature_hex : String) : Bool :=
  (libs.sha256Hex (canonicalString capset) == sha256_hash)
    && verify_manifest_signature libs dispatcher_vk cap_set_id version sha256_hash signature_hex

/-- A signature oracle that accepts exactly the two verifications the
pipeline performs on the `env0` fixture — the sender signature of step 3 and
the template-manifest signature of step 7 — and rejects every other
message, in particular any capability-set manifest. -/
def libsSel : ExternalLibs :=
  { sha256Hex := fun _ => "h",
    verify := fun vk msg sig =>
      (vk == "svk" && msg == canonical_bytes env0 && sig == [187])
        || (vk == "dvk" && msg == manifestString "tpl" "1" "h" && sig == [170]),
    jsonschemaOk := fun _ _ => true }

set_option maxRecDepth 8192 in
/-- C3, counterexample: under `libsSel` no dispatcher signature over any
capability-set manifest can verify — the claimed step-9 check fails even
for the correctly re-hashed manifest with either signature present in the
vault data — yet validation succeeds instead of failing with
`DispatcherSig`. -/
theorem c3_counterexample :
    validate libsSel vault0 cfg0 (.env env0) "svk" [] = (.ok result0, [validatedEvent cfg0 env0])
    ∧ capsetIntegritySpec libsSel vault0.dispatcher_vk capset0 "cs" "1" "h" "aa" = false
    ∧ capsetIntegritySpec libsSel vault0.dispatcher_vk capset0 "cs" "1" "h" "bb" = false := by
  refine ⟨rfl, by decide, by decide⟩

/-- Steps 10–12 use the resolved capability set only as the passed-through
`capability_set` field of a successful result: replacing it changes nothing
else of the outcome. -/
theorem step10to12_capset (libs : ExternalLibs) (cfg : ValidatorConfig) (e : SATLEnvelope)
    (store : List AuditEvent) (template c c' : Json) :
    step10to12 libs cfg e store template c'
      = (match step10to12 libs cfg e store template c with
         | (.ok res, s') => (.ok { res with capability_set := c' }, s')
         | (.error err, s') => (.error err, s')) := by
  unfold step10to12
  repeat' split
  all_goals first
    | rfl
    | assumption
    | (rename_i heq
       simp only [Prod.mk.injEq] at heq
       obtain ⟨h1, h2⟩ := heq
       cases h1
       cases h2
       rfl)
    | (rename_i heq; simp at heq)

/-- C3, amended: the validator performs no step-9 capability-set integrity
verification — after step 8 resolves the capability set, its *content* never
influences acceptance: replacing the stored capability set by an arbitrary
value (tampered or unsigned) yields the identical verdict and store, with
only the passed-through `capability_set` field of a successful result
changing. -/
theorem c3_step9_amended (libs : ExternalLibs) (vault : Vault) (cfg : ValidatorConfig)
    (e : SATLEnvelope) (vk : String) (store : List AuditEvent) (c c' : Json)
    (hc : vault.get_capability_set e.template_ref.capability_set_id
            e.template_ref.capability_set_version = some c) :
    validateFromStep3 libs
        { vault with capsets := [((e.template_ref.capability_set_id,
                                   e.template_ref.capability_set_version), c')] }
        cfg e vk store
      = (match validateFromStep3 libs vault cfg e vk store with
         | (.ok res, s') => (.ok { res with capability_set := c' }, s')
         | (.error err, s') => (.error err, s')) := by
  have hc' : Vault.get_capability_set
      { vault with capsets := [((e.template_ref.capability_set_id,
                                 e.template_ref.capability_set_version), c')] }
      e.template_ref.capability_set_id e.template_ref.capability_set_version = some c' := by
    simp [Vault.get_capability_set]
  have hgt : ∀ tid ver, Vault.get_template
      { vault with capsets := [((e.template_ref.capability_set_id,
                                 e.template_ref.capability_set_version), c')] } tid ver
      = vault.get_template tid ver := fun _ _ => rfl
  have hdv : ({ vault with capsets := [((e.template_ref.capability_set_id,
                                         e.template_ref.capability_set_version), c')] } : Vault).dispatcher_vk
      = vault.dispatcher_vk := rfl
  unfold validateFromStep3
  simp only [hgt, hdv]
  rw [hc', hc]
  repeat' split
  all_goals first
    | rfl
    | assumption
    | (rename_i heq
       simp only [Prod.mk.injEq] at heq
       obtain ⟨h1, h2⟩ := heq
       cases h1
       cases h2
       rfl)
    | (rename_i heq; simp at heq)
    | (rename_i hx2 capIn hsome hx1 hres hs1 heq
       cases hsome
       all_goals rw [step10to12_capset libs cfg e store _ c c']
       all_goals try rw [heq]
       all_goals try rfl)

/-- C3, witness of the amended theorem: replacing `capset0` by JSON `null`
in the vault leaves the happy-path verdict intact. -/
theorem c3_step9_amended_witness :
    validateFromStep3 libsTrue
        { vault0 with capsets := [((env0.template_ref.capability_set_id,
                                    env0.template_ref.capability_set_version), Json.null)] }
        cfg0 env0 "svk" []
      = (match validateFromStep3 libsTrue vault0 cfg0 env0 "svk" [] with
         | (.ok res, s') => (.ok { res with capability_set := Json.null }, s')
         | (.error err, s') => (.error err, s')) :=
  c3_step9_amended libsTrue vault0 cfg0 env0 "svk" [] capset0 Json.null rfl

/-! ## C6 -/

/-- C6: serialising a signed envelope (`envelope_to_json`, composed with the
stdlib round-trip at the value level) and re-parsing it with
`parse_envelope` yields the very same envelope, hence identical canonical
bytes, and its signature still verifies under the sender's key. -/
theorem c6_serialize_parse_roundtrip (libs : ExternalLibs) (vk : String) (e : SATLEnvelope)
    (hsig : verify_envelope_signature libs e vk = true) :
    parse_envelope_data (envelope_to_data e) = .ok e
    ∧ ∀ e', parse_envelope_data (envelope_to_data e) = .ok e' →
        canonical_bytes e' = canonical_bytes e
        ∧ verify_envelope_signature libs e' vk = true := by
  have h1 : parse_envelope_data (envelope_to_data e) = .ok e := rfl
  refine ⟨h1, ?_⟩
  intro e' h
  rw [h1] at h
  cases h
  exact ⟨rfl, hsig⟩

/-- C6, witness: the round trip on the concrete signed `env0`. -/
theorem c6_serialize_parse_roundtrip_witness :
    parse_envelope_data (envelope_to_data env0) = .ok env0
    ∧ verify_envelope_signature libsTrue env0 "svk" = true := by
  have h := c6_serialize_parse_roundtrip libsTrue "svk" env0 rfl
  exact ⟨h.1, (h.2 env0 h.1).2⟩

/-! ## C10 -/

/-- The ten top-level keys `parse_envelope` consumes. -/
def requiredEnvelopeKeys : List String :=
  ["template_ref", "version", "envelope_id", "session_id", "timestamp_utc", "sender_id",
   "receiver_id", "human_readable", "payload", "envelope_signature"]

/-- The six keys consumed inside `template_ref`. -/
def requiredTemplateRefKeys : List String :=
  ["template_id", "version", "sha256_hash", "dispatcher_signature", "capability_set_id",
   "capability_set_version"]

/-- Inserting an entry under a different key does not change a lookup. -/
theorem getField_middle (pre post : List (String × Json)) (k : String) (v : Json) (k0 : String)
    (h : ¬ k = k0) : getField (pre ++ (k, v) :: post) k0 = getField (pre ++ post) k0 := by
  have hp : (k == k0) = false := beq_eq_false_iff_ne.mpr h
  unfold getField
  rw [List.find?_append, List.find?_append]
  have hskip : List.find? (fun p => p.1 == k0) ((k, v) :: post)
      = List.find? (fun p => p.1 == k0) post := by
    simp [List.find?_cons, hp]
  rw [hskip]

/-- A lookup hits an entry whose key is absent from the prefix. -/
theorem getField_hit (fpre fpost : List (String × Json)) (k0 : String) (x : Json)
    (h : getField fpre k0 = none) : getField (fpre ++ (k0, x) :: fpost) k0 = some x := by
  unfold getField at h ⊢
  rw [List.find?_append]
  cases hf : List.find? (fun p => p.1 == k0) fpre with
  | some p => rw [hf] at h; cases h
  | none => simp [List.find?_cons]

/-- `parse_envelope` observes a decoded object only through its ten required
keys. -/
theorem parse_envelope_data_ext (f1 f2 : List (String × Json))
    (h : ∀ K, K ∈ requiredEnvelopeKeys → getField f1 K = getField f2 K) :
    parse_envelope_data (.obj f1) = parse_envelope_data (.obj f2) := by
  have hs : ∀ K, K ∈ requiredEnvelopeKeys → getStrField f1 K = getStrField f2 K := by
    intro K hK
    unfold getStrField
    rw [h K hK]
  simp only [parse_envelope_data]
  rw [h "template_ref" (by decide), hs "version" (by decide), hs "envelope_id" (by decide),
      hs "session_id" (by decide), hs "timestamp_utc" (by decide), hs "sender_id" (by decide),
      hs "receiver_id" (by decide), hs "human_readable" (by decide), h "payload" (by decide),
      hs "envelope_signature" (by decide)]

/-- The `TemplateRef` extraction observes its object only through the six
required keys. -/
theorem parse_template_ref_data_ext (tf1 tf2 : List (String × Json))
    (h : ∀ K, K ∈ requiredTemplateRefKeys → getField tf1 K = getField tf2 K) :
    parse_template_ref_data (.obj tf1) = parse_template_ref_data (.obj tf2) := by
  have hs : ∀ K, K ∈ requiredTemplateRefKeys → getStrField tf1 K = getStrField tf2 K := by
    intro K hK
    unfold getStrField
    rw [h K hK]
  simp only [parse_template_ref_data]
  rw [hs "template_id" (by decide), hs "version" (by decide), hs "sha256_hash" (by decide),
      hs "dispatcher_signature" (by decide), hs "capability_set_id" (by decide),
      hs "capability_set_version" (by decide)]

/-- Congruence through the nested `template_ref` value. -/
theorem parse_envelope_data_tref_congr (f1 f2 : List (String × Json)) (t1 t2 : Json)
    (htop : ∀ K, K ∈ requiredEnvelopeKeys → ¬ K = "template_ref" → getField f1 K = getField f2 K)
    (ht1 : getField f1 "template_ref" = some t1)
    (ht2 : getField f2 "template_ref" = some t2)
    (htr : parse_template_ref_data t1 = parse_template_ref_data t2) :
    parse_envelope_data (.obj f1) = parse_envelope_data (.obj f2) := by
  have hs : ∀ K, K ∈ requiredEnvelopeKeys → ¬ K = "template_ref" →
      getStrField f1 K = getStrField f2 K := by
    intro K hK hne
    unfold getStrField
    rw [htop K hK hne]
  simp only [parse_envelope_data]
  rw [ht1, ht2]
  simp only []
  rw [htr, hs "version" (by decide) (by decide), hs "envelope_id" (by decide) (by decide),
      hs "session_id" (by decide) (by decide), hs "timestamp_utc" (by decide) (by decide),
      hs "sender_id" (by decide) (by decide), hs "receiver_id" (by decide) (by decide),
      hs "human_readable" (by decide) (by decide), htop "payload" (by decide) (by decide),
      hs "envelope_signature" (by decide) (by decide)]

/-- C10: `parse_envelope` silently discards unknown fields — inserting an
extra entry under a fresh key, at the top level or inside `template_ref`
(its own key present once), leaves the parse result (success or failure, and
the returned envelope) unchanged, so the extra content never reaches
signature verification or any later validation step. -/
theorem c10_unknown_fields_discarded :
    (∀ (pre post : List (String × Json)) (k : String) (v : Json),
        ¬ k ∈ requiredEnvelopeKeys →
        parse_envelope_data (.obj (pre ++ (k, v) :: post))
          = parse_envelope_data (.obj (pre ++ post)))
    ∧ (∀ (fpre fpost tpre tpost : List (String × Json)) (k : String) (v : Json),
        ¬ k ∈ requiredTemplateRefKeys →
        getField fpre "template_ref" = none →
        parse_envelope_data
            (.obj (fpre ++ ("template_ref", .obj (tpre ++ (k, v) :: tpost)) :: fpost))
          = parse_envelope_data
            (.obj (fpre ++ ("template_ref", .obj (tpre ++ tpost)) :: fpost))) := by
  constructor
  · intro pre post k v hk
    apply parse_envelope_data_ext
    intro K hK
    exact getField_middle pre post k v K (fun he => hk (he ▸ hK))
  · intro fpre fpost tpre tpost k v hk hnone
    apply parse_envelope_data_tref_congr _ _
      (.obj (tpre ++ (k, v) :: tpost)) (.obj (tpre ++ tpost))
    · intro K hK hne
      rw [getField_middle fpre fpost "template_ref" _ K (fun he => hne he.symm),
          getField_middle fpre fpost "template_ref" _ K (fun he => hne he.symm)]
    · exact getField_hit fpre fpost "template_ref" _ hnone
    · exact getField_hit fpre fpost "template_ref" _ hnone
    · apply parse_template_ref_data_ext
      intro K hK
      exact getField_middle tpre tpost k v K (fun he => hk (he ▸ hK))

/-- The field list of `envelope_to_data env0`. -/
def env0Fields : List (String × Json) :=
  [("version", .str env0.version), ("envelope_id", .str env0.envelope_id),
   ("session_id", .str env0.session_id), ("timestamp_utc", .str env0.timestamp_utc),
   ("sender_id", .str env0.sender_id), ("receiver_id", .str env0.receiver_id),
   ("human_readable", .str env0.human_readable), ("template_ref", templateRefData env0.template_ref),
   ("payload", .obj env0.payload), ("envelope_signature", .str env0.envelope_signature)]

/-- C10, witness: prepending an `"extra"` key to `env0`'s serialised fields
parses to the very same envelope. -/
theorem c10_unknown_fields_discarded_witness :
    parse_envelope_data (.obj ([] ++ ("extra", .bool true) :: env0Fields))
      = parse_envelope_data (.obj ([] ++ env0Fields))
    ∧ parse_envelope_data (.obj ([] ++ env0Fields)) = .ok env0 := by
  constructor
  · exact c10_unknown_fields_discarded.1 [] env0Fields "extra" (.bool true) (by decide)
  · rfl

/-! ## C7 -/

/-- A tool call that will execute: its name is registered and its args
conform to the registered schema. -/
def callOk (libs : ExternalLibs) (gate : ToolGate) (tc : ToolCall) : Bool :=
  match gate.tools tc.tool_name with
  | none => false
  | some entry => libs.jsonschemaOk entry.args_schema tc.args

/-- The typed error a failing call raises: `UnknownToolError` for an
unregistered name, else `ToolArgSchemaError`. -/
def callFailKind (gate : ToolGate) (tc : ToolCall) : TGError :=
  match gate.tools tc.tool_name with
  | none => .unknownTool
  | some _ => .toolArgSchema

/-- The result of an executing call. -/
def callResult (gate : ToolGate) (context : Json) (tc : ToolCall) : Json :=
  match gate.tools tc.tool_name with
  | none => .null
  | some entry => entry.fn tc.args context

/-- When every call is executable, the loop returns one result per call in
plan order and appends one `tool_executed` event per call. -/
theorem executeLoop_all_ok (libs : ExternalLibs) (gate : ToolGate) (plan : ExecutionPlan)
    (context : Json) (now : String) :
    ∀ (calls : List ToolCall) (store : List AuditEvent) (acc : List Json),
      (∀ tc ∈ calls, callOk libs gate tc = true) →
      executeLoop libs gate plan context now store acc calls
        = (.ok (acc ++ calls.map (callResult gate context)),
           store ++ calls.map (toolExecutedEvent now plan)) := by
  intro calls
  induction calls with
  | nil =>
    intro store acc h
    simp [executeLoop]
  | cons tc rest ih =>
    intro store acc h
    have htc : callOk libs gate tc = true := h tc (by simp)
    cases hg : gate.tools tc.tool_name with
    | none => simp [callOk, hg] at htc
    | some entry =>
      simp only [callOk, hg] at htc
      simp only [executeLoop, hg, htc, not_true, if_false]
      rw [ih _ _ (fun x hx => h x (by simp [hx]))]
      simp [callResult, hg]

/-- The loop halts at the first failing call: the calls before it have
executed (their audit events are appended), the failing call surfaces its
typed error, and nothing after it runs. -/
theorem executeLoop_halt (libs : ExternalLibs) (gate : ToolGate) (plan : ExecutionPlan)
    (context : Json) (now : String) :
    ∀ (pre : List ToolCall) (bad : ToolCall) (post : List ToolCall)
      (store : List AuditEvent) (acc : List Json),
      (∀ tc ∈ pre, callOk libs gate tc = true) →
      callOk libs gate bad = false →
      executeLoop libs gate plan context now store acc (pre ++ bad :: post)
        = (.error (callFailKind gate bad), store ++ pre.map (toolExecutedEvent now plan)) := by
  intro pre
  induction pre with
  | nil =>
    intro bad post store acc hpre hbad
    cases hg : gate.tools bad.tool_name with
    | none => simp [executeLoop, hg, callFailKind]
    | some entry =>
      have hschema : libs.jsonschemaOk entry.args_schema bad.args = false := by
        simpa [callOk, hg] using hbad
      simp [executeLoop, hg, hschema, callFailKind]
  | cons tc rest ih =>
    intro bad post store acc hpre hbad
    have htc : callOk libs gate tc = true := hpre tc (by simp)
    cases hg : gate.tools tc.tool_name with
    | none => simp [callOk, hg] at htc
    | some entry =>
      simp only [callOk, hg] at htc
      simp only [List.cons_append, executeLoop, hg, htc, not_true, if_false]
      simp only [List.append_eq]
      rw [ih bad post _ _ (fun x hx => hpre x (by simp [hx])) hbad]
      simp

/-- A registered formatting tool. -/
def entry0 : ToolEntry := { fn := fun _ _ => .obj [("ok", .bool true)], args_schema := .obj [] }

/-- A gate pinned to issuer key `ivk` with the single tool `fmt`. -/
def gate0 : ToolGate :=
  { issuer_vk := "ivk", tools := fun n => if n = "fmt" then some entry0 else none }

/-- A call to the registered tool. -/
def tcFmt : ToolCall := { tool_call_id := "c1", tool_name := "fmt", args := .obj [] }

/-- A plan whose `issuer_signature` is not a hex string. -/
def planZZ : ExecutionPlan :=
  { plan_id := "p1", session_id := "s1", issuer_id := "over", timestamp_utc := "t",
    tool_calls := [tcFmt], issuer_signature := "zz" }

/-- C7, counterexample: for a plan whose `issuer_signature` is not valid
hex, `execute` fails with the uncaught `ValueError` of `bytes.fromhex` (no
tool runs and the audit store is untouched), not with `BadSignature` as the
claim states — `execute`, unlike the envelope and manifest verifiers, does
not wrap the decoding failure. -/
theorem c7_counterexample :
    ToolGate.execute libsTrue gate0 planZZ (.obj []) "t1" [] = (.error .valueError, [])
    ∧ TGError.valueError ≠ TGError.badSignature := by
  exact ⟨rfl, by decide⟩

/-- C7, amended: `execute` hex-decodes the issuer signature (a non-hex
signature fails with the uncaught `ValueError`; no tool runs), verifies it
once over the canonical plan bytes before any call (failure is
`BadSignature`; no tool runs, store untouched); with a valid signature the
calls run in order: a failing call (unregistered name → `UnknownTool`,
non-conforming args → `ToolArgSchema`) halts the loop with the events of the
already-executed prefix appended and nothing after it run, and on success
the result list has one entry per call, in `plan.tool_calls` order. -/
theorem c7_execute_amended (libs : ExternalLibs) (gate : ToolGate) (plan : ExecutionPlan)
    (context : Json) (now : String) (store : List AuditEvent) :
    (hexDecode plan.issuer_signature = none →
       ToolGate.execute libs gate plan context now store = (.error .valueError, store))
    ∧ (∀ sig_bytes, hexDecode plan.issuer_signature = some sig_bytes →
         libs.verify gate.issuer_vk (plan_canonical_bytes plan) sig_bytes = false →
         ToolGate.execute libs gate plan context now store = (.error .badSignature, store))
    ∧ (∀ sig_bytes, hexDecode plan.issuer_signature = some sig_bytes →
         libs.verify gate.issuer_vk (plan_canonical_bytes plan) sig_bytes = true →
         ((∀ tc ∈ plan.tool_calls, callOk libs gate tc = true) →
            ToolGate.execute libs gate plan context now store
              = (.ok (plan.tool_calls.map (callResult gate context)),
                 store ++ plan.tool_calls.map (toolExecutedEvent now plan)))
         ∧ (∀ pre bad post, plan.tool_calls = pre ++ bad :: post →
              (∀ tc ∈ pre, callOk libs gate tc = true) →
              callOk libs gate bad = false →
              ToolGate.execute libs gate plan context now store
                = (.error (callFailKind gate bad),
                   store ++ pre.map (toolExecutedEvent now plan)))) := by
  refine ⟨?_, ?_, ?_⟩
  · intro hnone
    unfold ToolGate.execute
    rw [hnone]
  · intro sig_bytes hsome hfail
    unfold ToolGate.execute
    rw [hsome]
    simp [hfail]
  · intro sig_bytes hsome hok
    constructor
    · intro hall
      unfold ToolGate.execute
      rw [hsome]
      simp only [hok, not_true, if_false]
      exact executeLoop_all_ok libs gate plan context now plan.tool_calls store [] hall
    · intro pre bad post hsplit hpre hbad
      unfold ToolGate.execute
      rw [hsome]
      simp only [hok, not_true, if_false]
      rw [hsplit]
      exact executeLoop_halt libs gate plan context now pre bad post store [] hpre hbad

/-- A correctly signed plan over the registered tool. -/
def planOK : ExecutionPlan :=
  { plan_id := "p1", session_id := "s1", issuer_id := "over", timestamp_utc := "t",
    tool_calls := [tcFmt], issuer_signature := "aa" }

/-- A plan naming an unregistered tool. -/
def planBadTool : ExecutionPlan :=
  { plan_id := "p2", session_id := "s1", issuer_id := "over", timestamp_utc := "t",
    tool_calls := [{ tool_call_id := "c1", tool_name := "nosuch", args := .obj [] }],
    issuer_signature := "aa" }

/-- Toy libraries whose signature verification always fails. -/
def libsNoVerify : ExternalLibs :=
  { sha256Hex := fun _ => "h", verify := fun _ _ _ => false, jsonschemaOk := fun _ _ => true }

/-- C7, witness: the amended theorem instantiated on a bad-signature run, a
successful run, and a halt at an unregistered tool. -/
theorem c7_execute_amended_witness :
    ToolGate.execute libsNoVerify gate0 planOK (.obj []) "t1" [] = (.error .badSignature, [])
    ∧ ToolGate.execute libsTrue gate0 planOK (.obj []) "t1" []
        = (.ok ([] ++ [tcFmt].map (callResult gate0 (.obj []))),
           [] ++ [tcFmt].map (toolExecutedEvent "t1" planOK))
    ∧ ToolGate.execute libsTrue gate0 planBadTool (.obj []) "t1" []
        = (.error (callFailKind gate0 { tool_call_id := "c1", tool_name := "nosuch", args := .obj [] }),
           [] ++ ([] : List ToolCall).map (toolExecutedEvent "t1" planBadTool)) := by
  refine ⟨?_, ?_, ?_⟩
  · exact (c7_execute_amended libsNoVerify gate0 planOK (.obj []) "t1" []).2.1 [170] rfl rfl
  · exact ((c7_execute_amended libsTrue gate0 planOK (.obj []) "t1" []).2.2 [170] rfl rfl).1
      (by decide)
  · exact ((c7_execute_amended libsTrue gate0 planBadTool (.obj []) "t1" []).2.2 [170] rfl rfl).2
      [] { tool_call_id := "c1", tool_name := "nosuch", args := .obj [] } [] rfl
      (by intro tc htc; cases htc) (by decide)

/-! ## C5 -/

/-- A filesystem with directory `/b` and a dangling symlink
`/b/link → /b/missing` (nothing exists at `/b/missing`). -/
def fsDangling : Filesystem :=
  ⟨[(["b"], .dir), (["b", "link"], .symlink ["b", "missing"])]⟩

/-- C5, evaluation at the failing input: `/b/link` *is* a symlink (per
`lstat`), yet `resolve_safe_path("/b", "link")` returns `/b/missing`
instead of raising `SafePathError` — the guard
`if p.exists() and p.is_symlink()` short-circuits on the dangling symlink
(`exists()` follows the link and sees nothing), although the function's own
comment says the walk is ordered "so we catch dangling symlinks early" and
the spec requires rejecting *any* symlink component. -/
theorem c5_dangling_symlink_eval :
    isSymlinkPath fsDangling ["b", "link"] = true
    ∧ pathExists fsDangling ["b", "link"] = false
    ∧ resolve_safe_path fsDangling ["b"] ["link"] = .ok ["b", "missing"] := by
  refine ⟨rfl, rfl, rfl⟩

end Saoe
